import Mathlib

/-!
Shallow embedding of the BLE presence-registry core (`src/main.py`).

A Python device record is a JSON-style dict whose keys may be absent
(the code reads several of them with `dict.get` and a default), so every
field of `DeviceRecord` is an `Option`.  The registry `devices` is a
Python dict keyed by address; we model it as an insertion-ordered
association list.  Timestamps are `Int` (Python `int(time.time())`).
`rssi` is `Option (Option Int)`: the outer layer is key presence, the
inner layer is the JSON value, which may be `null`.
-/

structure DeviceRecord where
  tag : Option String
  address : Option String
  ble_name : Option String
  custom_name : Option String
  rssi : Option (Option Int)
  first_seen : Option Int
  last_seen : Option Int
  status : Option String
  seen_count : Option Int
  out_time : Option Int
  deriving DecidableEq, Repr

abbrev Registry := List (String × DeviceRecord)

/-- One scan observation: `dev.address`, `dev.name` (may be `None`),
`getattr(dev, "rssi", None)`. -/
structure Observation where
  address : String
  name : Option String
  rssi : Option Int
  deriving DecidableEq, Repr

/-- Constant `EXIT_TIMEOUT = 30` from the config block of `main.py`. -/
def EXIT_TIMEOUT : Int := 30

/-- Constant `TAG_PREFIX = "TAG"` from the config block of `main.py`. -/
def TAG_LABEL : String := "TAG"

/-! ### Tag generation (`make_tag`): SHA-1 over the UTF-8 bytes of the address -/

/-- UTF-8 encoding of one code point (what Python `str.encode()` does),
as byte values. -/
def utf8Byt (c : Char) : List Nat :=
  let n := c.toNat
  if n < 0x80 then [n]
  else if n < 0x800 then [0xC0 ||| (n >>> 6), 0x80 ||| (n &&& 0x3F)]
  else if n < 0x10000 then
    [0xE0 ||| (n >>> 12), 0x80 ||| ((n >>> 6) &&& 0x3F), 0x80 ||| (n &&& 0x3F)]
  else
    [0xF0 ||| (n >>> 18), 0x80 ||| ((n >>> 12) &&& 0x3F),
     0x80 ||| ((n >>> 6) &&& 0x3F), 0x80 ||| (n &&& 0x3F)]

def utf8Bytes (s : String) : List Nat :=
  s.data.flatMap utf8Byt

/-- The word modulus 2^32 for SHA-1 arithmetic. -/
def M32 : Nat := 4294967296

/-- Rotate a 32-bit word left by `n` bits. -/
def rotl (n x : Nat) : Nat :=
  ((x <<< n) % M32) ||| (x >>> (32 - n))

/-- SHA-1 message padding: `0x80`, zeros to 56 mod 64, then the 64-bit
big-endian bit length. -/
def sha1Pad (msg : List Nat) : List Nat :=
  let bitLen := msg.length * 8
  let zeros := (64 + 56 - ((msg.length + 1) % 64)) % 64
  msg ++ [0x80] ++ List.replicate zeros 0 ++
    ((List.range 8).map fun i => (bitLen >>> (8 * (7 - i))) % 256)

/-- Split a byte list into blocks of 64 (fuel-driven so it evaluates in
the kernel; the fuel `l.length` always suffices since each step consumes
a nonempty list). -/
def blocks64Aux : Nat → List Nat → List (List Nat)
  | 0, _ => []
  | _ + 1, [] => []
  | fuel + 1, l => l.take 64 :: blocks64Aux fuel (l.drop 64)

def blocks64 (l : List Nat) : List (List Nat) :=
  blocks64Aux l.length l

/-- Big-endian 32-bit words from bytes. -/
def bytesToWords : List Nat → List Nat
  | b0 :: b1 :: b2 :: b3 :: rest =>
      (((b0 * 256 + b1) * 256 + b2) * 256 + b3) :: bytesToWords rest
  | _ => []

/-- Extend the 16 message words to 80 by appending
`rotl 1 (w[i-3] xor w[i-8] xor w[i-14] xor w[i-16])` `k` more times. -/
def extendW (ws : List Nat) : Nat → List Nat
  | 0 => ws
  | k + 1 =>
      let m := ws.length
      extendW (ws ++ [rotl 1 (ws.getD (m - 3) 0 ^^^ ws.getD (m - 8) 0 ^^^
        ws.getD (m - 14) 0 ^^^ ws.getD (m - 16) 0)]) k

def sha1F (t b c d : Nat) : Nat :=
  if t < 20 then (b &&& c) ||| ((b ^^^ (M32 - 1)) &&& d)
  else if t < 40 then b ^^^ c ^^^ d
  else if t < 60 then (b &&& c) ||| (b &&& d) ||| (c &&& d)
  else b ^^^ c ^^^ d

def sha1K (t : Nat) : Nat :=
  if t < 20 then 0x5A827999
  else if t < 40 then 0x6ED9EBA1
  else if t < 60 then 0x8F1BBCDC
  else 0xCA62C1D6

/-- One SHA-1 round on the working state `(a, b, c, d, e)`. -/
def sha1Round (w : List Nat) (st : Nat × Nat × Nat × Nat × Nat) (t : Nat) :
    Nat × Nat × Nat × Nat × Nat :=
  let (a, b, c, d, e) := st
  ((rotl 5 a + sha1F t b c d + e + sha1K t + w.getD t 0) % M32,
   a, rotl 30 b, c, d)

/-- Process one 64-byte block, updating the five chaining words. -/
def sha1Block (h : Nat × Nat × Nat × Nat × Nat) (blk : List Nat) :
    Nat × Nat × Nat × Nat × Nat :=
  let w := extendW (bytesToWords blk) 64
  let (h0, h1, h2, h3, h4) := h
  let (a, b, c, d, e) := (List.range 80).foldl (sha1Round w) h
  ((h0 + a) % M32, (h1 + b) % M32, (h2 + c) % M32, (h3 + d) % M32,
   (h4 + e) % M32)

/-- SHA-1 of a byte string: the five 32-bit digest words. -/
def sha1Words (msg : List Nat) : Nat × Nat × Nat × Nat × Nat :=
  (blocks64 (sha1Pad msg)).foldl sha1Block
    (0x67452301, 0xEFCDAB89, 0x98BADCFE, 0x10325476, 0xC3D2E1F0)

/-- Hexadecimal digit characters as Python formats them: code points
48–57 for `0`–`9`, then 97–102 for lowercase `a`–`f`. -/
def nibbleChar (n : Nat) : Char :=
  if n < 10 then Char.ofNat (48 + n) else Char.ofNat (87 + n)

/-- Eight lowercase hex characters of a 32-bit word, most significant first. -/
def wordHexChars (w : Nat) : List Char :=
  [28, 24, 20, 16, 12, 8, 4, 0].map fun s => nibbleChar ((w >>> s) % 16)

/-- Model of `hashlib.sha1(...).hexdigest()`: 40 lowercase hex characters. -/
def sha1HexChars (msg : List Nat) : List Char :=
  let (h0, h1, h2, h3, h4) := sha1Words msg
  wordHexChars h0 ++ wordHexChars h1 ++ wordHexChars h2 ++
    wordHexChars h3 ++ wordHexChars h4

/-- Function `make_tag` from `main.py`:
`h = hashlib.sha1(addr.encode()).hexdigest()[:8].upper()` and
`f"{TAG_PREFIX}-{h}"`.  Python string slicing and `str.upper` are the
corresponding character-list operations. -/
def make_tag (addr : String) : String :=
  ⟨(TAG_LABEL ++ "-").data ++ ((sha1HexChars (utf8Bytes addr)).take 8).map Char.toUpper⟩

set_option maxRecDepth 100000

/-! ### Registry operations -/

/-- Update in place the value stored under key `a` (Python
`devices[a] = ...` mutation of an existing entry: keys and order are
unchanged). -/
def updateAt (a : String) (f : DeviceRecord → DeviceRecord) (reg : Registry) :
    Registry :=
  reg.map fun p => if p.1 = a then (p.1, f p.2) else p

/-- Python truthiness of the optional `name` argument (`if name:`):
false for `None` and for the empty string. -/
def strTruthy : Option String → Bool
  | some s => s ≠ ""
  | none => false

/-- Python `name or "-"`. -/
def orDash : Option String → String
  | some s => if s = "" then "-" else s
  | none => "-"

/-- The record created by `mark_seen` for a previously unseen address. -/
def newRecord (addr : String) (name : Option String) (rssi : Option Int)
    (now : Int) : DeviceRecord :=
  { tag := some (make_tag addr)
    address := some addr
    ble_name := some (orDash name)
    custom_name := some ""
    rssi := some rssi
    first_seen := some now
    last_seen := some now
    status := some "IN"
    seen_count := some 1
    out_time := none }

/-- The update `mark_seen` applies to an already known record: set
`last_seen`, `rssi`, `status`, bump `seen_count` (`d.get("seen_count", 0) + 1`),
and overwrite `ble_name` only when `name` is truthy. -/
def seenUpdate (name : Option String) (rssi : Option Int) (now : Int)
    (d : DeviceRecord) : DeviceRecord :=
  let d1 := { d with last_seen := some now, rssi := some rssi,
                     status := some "IN",
                     seen_count := some (d.seen_count.getD 0 + 1) }
  if strTruthy name then { d1 with ble_name := name } else d1

/-- Function `mark_seen(devices, addr, name, rssi)` from `main.py`.  The function
reads `now = int(time.time())` itself; we pass that reading explicitly. -/
def mark_seen (devices : Registry) (addr : String) (name : Option String)
    (rssi : Option Int) (now : Int) : Registry :=
  match devices.lookup addr with
  | some _ => updateAt addr (seenUpdate name rssi now) devices
  | none => devices ++ [(addr, newRecord addr name rssi now)]

/-- The per-record body of `cleanup_exits`:
`if d.get("status") == "IN" and now - d.get("last_seen", 0) > EXIT_TIMEOUT`. -/
def cleanupRecord (now threshold : Int) (d : DeviceRecord) : DeviceRecord :=
  if d.status = some "IN" ∧ now - d.last_seen.getD 0 > threshold then
    { d with status := some "OUT", out_time := some now }
  else d

/-- Function `cleanup_exits(devices)` from `main.py`, with its time reading `now`
and the `EXIT_TIMEOUT` constant passed explicitly.  The Python loop
rewrites each record from its own fields only, so it is a per-value map. -/
def cleanup_exits (now threshold : Int) (devices : Registry) : Registry :=
  devices.map fun p => (p.1, cleanupRecord now threshold p.2)

/-- The `💾 Simpan Nama` handler:
`devices[selected_addr]["custom_name"] = new_name`.  A missing key makes
the subscript raise `KeyError` before anything is mutated. -/
def set_custom_name (devices : Registry) (addr new_name : String) :
    Except String Registry :=
  match devices.lookup addr with
  | some _ =>
      .ok (updateAt addr (fun d => { d with custom_name := some new_name }) devices)
  | none => .error ("KeyError: " ++ addr)

/-- The ingestion loop of `scan_once`:
`for dev in found: mark_seen(devices, dev.address, dev.name, ...)`.
Each `mark_seen` call reads `int(time.time())` itself, so the `k`-th
observation of the batch is stamped with the `k`-th clock reading
`clock k`. -/
def scan_ingest (clock : Nat → Int) (k : Nat) (devices : Registry) :
    List Observation → Registry
  | [] => devices
  | o :: rest =>
      scan_ingest clock (k + 1) (mark_seen devices o.address o.name o.rssi (clock k)) rest

/-! ### Persistence (`save_devices` / `load_devices`) -/

/-- The fragment of JSON the registry file uses. -/
inductive Json where
  | null
  | str (s : String)
  | num (n : Int)
  | obj (entries : List (String × Json))
  deriving Repr

/-- A key/value pair that is present only when the record carries the
field. -/
def optEntry (k : String) : Option Json → List (String × Json)
  | some j => [(k, j)]
  | none => []

/-- An optional-integer JSON value: Python `None` serialises as `null`. -/
def optIntJson : Option Int → Json
  | some n => .num n
  | none => .null

/-- The key/value pairs `json.dump` writes for one device record: exactly
the fields present on the dict, in field order. -/
def recordEntries (d : DeviceRecord) : List (String × Json) :=
  optEntry "tag" (d.tag.map .str) ++
    optEntry "address" (d.address.map .str) ++
    optEntry "ble_name" (d.ble_name.map .str) ++
    optEntry "custom_name" (d.custom_name.map .str) ++
    optEntry "rssi" (d.rssi.map optIntJson) ++
    optEntry "first_seen" (d.first_seen.map .num) ++
    optEntry "last_seen" (d.last_seen.map .num) ++
    optEntry "status" (d.status.map .str) ++
    optEntry "seen_count" (d.seen_count.map .num) ++
    optEntry "out_time" (d.out_time.map .num)

/-- How `json.dump` renders one device record: one JSON object. -/
def encodeRecord (d : DeviceRecord) : Json :=
  .obj (recordEntries d)

def getStrField (es : List (String × Json)) (k : String) : Option String :=
  match es.lookup k with
  | some (.str s) => some s
  | _ => none

def getIntField (es : List (String × Json)) (k : String) : Option Int :=
  match es.lookup k with
  | some (.num n) => some n
  | _ => none

def getOptIntField (es : List (String × Json)) (k : String) : Option (Option Int) :=
  match es.lookup k with
  | some (.num n) => some (some n)
  | some .null => some none
  | _ => none

/-- Reading a device record back out of its JSON object. -/
def decodeRecord (j : Json) : DeviceRecord :=
  match j with
  | .obj es =>
      { tag := getStrField es "tag"
        address := getStrField es "address"
        ble_name := getStrField es "ble_name"
        custom_name := getStrField es "custom_name"
        rssi := getOptIntField es "rssi"
        first_seen := getIntField es "first_seen"
        last_seen := getIntField es "last_seen"
        status := getStrField es "status"
        seen_count := getIntField es "seen_count"
        out_time := getIntField es "out_time" }
  | _ =>
      { tag := none, address := none, ble_name := none, custom_name := none,
        rssi := none, first_seen := none, last_seen := none, status := none,
        seen_count := none, out_time := none }

def encodeRegistry (reg : Registry) : Json :=
  .obj (reg.map fun p => (p.1, encodeRecord p.2))

def decodeRegistry (j : Json) : Registry :=
  match j with
  | .obj es => es.map fun p => (p.1, decodeRecord p.2)
  | _ => []

/-- What `devices.json` can hold when `load_devices` runs: no file, a
file whose open/parse raises, or well-formed JSON content. -/
inductive FileState where
  | missing
  | unreadable
  | content (j : Json)

/-- Function `load_devices()` from `main.py`: missing file and any read/parse
error both produce `{}`; otherwise the parsed document is returned as-is. -/
def load_devices : FileState → Json
  | .missing => .obj []
  | .unreadable => .obj []
  | .content j => j

/-- Function `save_devices(devices)` from `main.py`: the file now holds the JSON
rendering of the registry. -/
def save_devices (devices : Registry) : FileState :=
  .content (encodeRegistry devices)

/-- The sixteen uppercase hexadecimal characters,
`"0123456789ABCDEF"`. -/
def upperHexChars : List Char :=
  (List.range 16).map fun n => (nibbleChar n).toUpper

/-- A record as created by ingesting the observation
`{address: "AA:BB", name: "Phone1", signalStrength: -60}` at time 1000;
used to instantiate the general theorems on concrete inputs. -/
def sampleRec : DeviceRecord :=
  { tag := some "TAG-27DE5F57", address := some "AA:BB",
    ble_name := some "Phone1", custom_name := some "",
    rssi := some (some (-60)), first_seen := some 1000, last_seen := some 1000,
    status := some "IN", seen_count := some 1, out_time := none }

/-! ### Lookup lemmas for the registry operations -/

theorem lookup_cons_ne {α β : Type} [BEq α] [LawfulBEq α] (a k : α) (v : β)
    (es : List (α × β)) (h : a ≠ k) : ((k, v) :: es).lookup a = es.lookup a := by
  rw [List.lookup_cons, beq_eq_false_iff_ne.mpr h]

theorem lookup_updateAt_self (a : String) (f : DeviceRecord → DeviceRecord)
    (reg : Registry) :
    (updateAt a f reg).lookup a = (reg.lookup a).map f := by
  induction reg with
  | nil => rfl
  | cons p rest ih =>
      obtain ⟨k, v⟩ := p
      by_cases hk : k = a
      · subst hk
        simp [updateAt]
      · rw [show updateAt a f ((k, v) :: rest) = (k, v) :: updateAt a f rest by
          simp [updateAt, hk]]
        rw [lookup_cons_ne _ _ _ _ (Ne.symm hk), lookup_cons_ne _ _ _ _ (Ne.symm hk)]
        exact ih

theorem lookup_updateAt_ne (a b : String) (f : DeviceRecord → DeviceRecord)
    (reg : Registry) (h : b ≠ a) :
    (updateAt a f reg).lookup b = reg.lookup b := by
  induction reg with
  | nil => rfl
  | cons p rest ih =>
      obtain ⟨k, v⟩ := p
      by_cases hbk : b = k
      · subst hbk
        rw [show updateAt a f ((b, v) :: rest) = (b, v) :: updateAt a f rest by
          simp [updateAt, h]]
        simp
      · by_cases hk : k = a
        · rw [show updateAt a f ((k, v) :: rest)
              = (k, f v) :: updateAt a f rest by simp [updateAt, hk]]
          rw [lookup_cons_ne _ _ _ _ hbk, lookup_cons_ne _ _ _ _ hbk]
          exact ih
        · rw [show updateAt a f ((k, v) :: rest)
              = (k, v) :: updateAt a f rest by simp [updateAt, hk]]
          rw [lookup_cons_ne _ _ _ _ hbk, lookup_cons_ne _ _ _ _ hbk]
          exact ih

theorem lookup_cleanup_exits (now threshold : Int) (reg : Registry) (a : String) :
    (cleanup_exits now threshold reg).lookup a =
      (reg.lookup a).map (cleanupRecord now threshold) := by
  induction reg with
  | nil => rfl
  | cons p rest ih =>
      obtain ⟨k, v⟩ := p
      by_cases hak : a = k
      · subst hak
        simp [cleanup_exits]
      · rw [show cleanup_exits now threshold ((k, v) :: rest)
            = (k, cleanupRecord now threshold v) :: cleanup_exits now threshold rest by
          simp [cleanup_exits]]
        rw [lookup_cons_ne _ _ _ _ hak, lookup_cons_ne _ _ _ _ hak]
        exact ih

theorem lookup_append_self (reg : Registry) (a : String) (r : DeviceRecord)
    (h : reg.lookup a = none) :
    (reg ++ [(a, r)]).lookup a = some r := by
  rw [List.lookup_append, h]
  simp

theorem lookup_append_ne (reg : Registry) (a b : String) (r : DeviceRecord)
    (h : b ≠ a) :
    (reg ++ [(a, r)]).lookup b = reg.lookup b := by
  rw [List.lookup_append, lookup_cons_ne _ _ _ _ h]
  simp

/-! ### Record-level lemmas -/

theorem cleanupRecord_idem (now threshold : Int) (d : DeviceRecord) :
    cleanupRecord now threshold (cleanupRecord now threshold d)
      = cleanupRecord now threshold d := by
  by_cases h : d.status = some "IN" ∧ now - d.last_seen.getD 0 > threshold
  · have h1 : cleanupRecord now threshold d
        = { d with status := some "OUT", out_time := some now } := by
      rw [cleanupRecord, if_pos h]
    rw [h1, cleanupRecord, if_neg]
    rintro ⟨h2, -⟩
    have h3 : (some "OUT" : Option String) = some "IN" := h2
    exact absurd (Option.some.inj h3) (by decide)
  · have h1 : cleanupRecord now threshold d = d := by
      rw [cleanupRecord, if_neg h]
    rw [h1, h1]

theorem cleanup_exits_idem (now threshold : Int) (reg : Registry) :
    cleanup_exits now threshold (cleanup_exits now threshold reg)
      = cleanup_exits now threshold reg := by
  induction reg with
  | nil => rfl
  | cons p rest ih =>
      simp only [cleanup_exits, List.map_cons] at *
      rw [cleanupRecord_idem]
      exact congrArg _ ih

theorem mark_seen_last_seen (reg : Registry) (addr : String)
    (name : Option String) (rssi : Option Int) (now : Int) :
    ((mark_seen reg addr name rssi now).lookup addr).map DeviceRecord.last_seen
      = some (some now) := by
  cases h : reg.lookup addr with
  | some d =>
      simp only [mark_seen, h]
      rw [lookup_updateAt_self, h]
      by_cases ht : strTruthy name <;> simp [seenUpdate, ht]
  | none =>
      simp only [mark_seen, h]
      rw [lookup_append_self _ _ _ h]
      simp [newRecord]

theorem mark_seen_other (reg : Registry) (addr b : String)
    (name : Option String) (rssi : Option Int) (now : Int) (h : b ≠ addr) :
    (mark_seen reg addr name rssi now).lookup b = reg.lookup b := by
  cases hl : reg.lookup addr with
  | some d =>
      simp only [mark_seen, hl]
      exact lookup_updateAt_ne _ _ _ _ h
  | none =>
      simp only [mark_seen, hl]
      exact lookup_append_ne _ _ _ _ h

/-! ### Persistence round-trip lemmas -/

theorem lookup_skip (k k2 : String) (v : Option Json)
    (rest : List (String × Json)) (h : k ≠ k2) :
    (optEntry k2 v ++ rest).lookup k = rest.lookup k := by
  cases v with
  | none => rfl
  | some j =>
      simp only [optEntry, List.singleton_append]
      exact lookup_cons_ne _ _ _ _ h

theorem lookup_skip_last (k k2 : String) (v : Option Json) (h : k ≠ k2) :
    (optEntry k2 v).lookup k = none := by
  cases v with
  | none => rfl
  | some j =>
      rw [show optEntry k2 (some j) = [(k2, j)] from rfl,
        lookup_cons_ne _ _ _ _ h]
      rfl

theorem lookup_hit (k : String) (j : Json) (rest : List (String × Json)) :
    (optEntry k (some j) ++ rest).lookup k = some j := by
  simp [optEntry]

theorem lookup_hit_last (k : String) (j : Json) :
    (optEntry k (some j)).lookup k = some j := by
  simp [optEntry]

theorem optEntry_none_append (k : String) (rest : List (String × Json)) :
    optEntry k none ++ rest = rest := rfl

theorem optEntry_none (k : String) : optEntry k none = ([] : List (String × Json)) := rfl

theorem recordEntries_tag (d : DeviceRecord) :
    getStrField (recordEntries d) "tag" = d.tag := by
  cases h : d.tag <;>
    simp [getStrField, recordEntries, h, lookup_skip, lookup_skip_last,
      lookup_hit, lookup_hit_last, optEntry_none_append, optEntry_none]

theorem recordEntries_address (d : DeviceRecord) :
    getStrField (recordEntries d) "address" = d.address := by
  cases h : d.address <;>
    simp [getStrField, recordEntries, h, lookup_skip, lookup_skip_last,
      lookup_hit, lookup_hit_last, optEntry_none_append, optEntry_none]

theorem recordEntries_ble_name (d : DeviceRecord) :
    getStrField (recordEntries d) "ble_name" = d.ble_name := by
  cases h : d.ble_name <;>
    simp [getStrField, recordEntries, h, lookup_skip, lookup_skip_last,
      lookup_hit, lookup_hit_last, optEntry_none_append, optEntry_none]

theorem recordEntries_custom_name (d : DeviceRecord) :
    getStrField (recordEntries d) "custom_name" = d.custom_name := by
  cases h : d.custom_name <;>
    simp [getStrField, recordEntries, h, lookup_skip, lookup_skip_last,
      lookup_hit, lookup_hit_last, optEntry_none_append, optEntry_none]

theorem recordEntries_rssi (d : DeviceRecord) :
    getOptIntField (recordEntries d) "rssi" = d.rssi := by
  rcases h : d.rssi with _ | (_ | n) <;>
    simp [getOptIntField, recordEntries, h, lookup_skip, lookup_skip_last,
      lookup_hit, lookup_hit_last, optEntry_none_append, optEntry_none, optIntJson]

theorem recordEntries_first_seen (d : DeviceRecord) :
    getIntField (recordEntries d) "first_seen" = d.first_seen := by
  cases h : d.first_seen <;>
    simp [getIntField, recordEntries, h, lookup_skip, lookup_skip_last,
      lookup_hit, lookup_hit_last, optEntry_none_append, optEntry_none]

theorem recordEntries_last_seen (d : DeviceRecord) :
    getIntField (recordEntries d) "last_seen" = d.last_seen := by
  cases h : d.last_seen <;>
    simp [getIntField, recordEntries, h, lookup_skip, lookup_skip_last,
      lookup_hit, lookup_hit_last, optEntry_none_append, optEntry_none]

theorem recordEntries_status (d : DeviceRecord) :
    getStrField (recordEntries d) "status" = d.status := by
  cases h : d.status <;>
    simp [getStrField, recordEntries, h, lookup_skip, lookup_skip_last,
      lookup_hit, lookup_hit_last, optEntry_none_append, optEntry_none]

theorem recordEntries_seen_count (d : DeviceRecord) :
    getIntField (recordEntries d) "seen_count" = d.seen_count := by
  cases h : d.seen_count <;>
    simp [getIntField, recordEntries, h, lookup_skip, lookup_skip_last,
      lookup_hit, lookup_hit_last, optEntry_none_append, optEntry_none]

theorem recordEntries_out_time (d : DeviceRecord) :
    getIntField (recordEntries d) "out_time" = d.out_time := by
  cases h : d.out_time <;>
    simp [getIntField, recordEntries, h, lookup_skip, lookup_skip_last,
      lookup_hit, lookup_hit_last, optEntry_none_append, optEntry_none]

theorem decode_encodeRecord (d : DeviceRecord) :
    decodeRecord (encodeRecord d) = d := by
  show ({ tag := getStrField (recordEntries d) "tag",
          address := getStrField (recordEntries d) "address",
          ble_name := getStrField (recordEntries d) "ble_name",
          custom_name := getStrField (recordEntries d) "custom_name",
          rssi := getOptIntField (recordEntries d) "rssi",
          first_seen := getIntField (recordEntries d) "first_seen",
          last_seen := getIntField (recordEntries d) "last_seen",
          status := getStrField (recordEntries d) "status",
          seen_count := getIntField (recordEntries d) "seen_count",
          out_time := getIntField (recordEntries d) "out_time" } : DeviceRecord) = d
  rw [recordEntries_tag, recordEntries_address, recordEntries_ble_name,
    recordEntries_custom_name, recordEntries_rssi, recordEntries_first_seen,
    recordEntries_last_seen, recordEntries_status, recordEntries_seen_count,
    recordEntries_out_time]

theorem decode_encodeRegistry (reg : Registry) :
    decodeRegistry (encodeRegistry reg) = reg := by
  induction reg with
  | nil => rfl
  | cons p rest ih =>
      obtain ⟨k, v⟩ := p
      show (k, decodeRecord (encodeRecord v))
          :: decodeRegistry (encodeRegistry rest) = (k, v) :: rest
      rw [decode_encodeRecord, ih]

/-! ### Hex-format lemmas for `make_tag` -/

example : String.mk upperHexChars = "0123456789ABCDEF" := by decide

theorem nibbleChar_toUpper_mem (n : Nat) (h : n < 16) :
    (nibbleChar n).toUpper ∈ upperHexChars := by
  simp only [upperHexChars, List.mem_map]
  exact ⟨n, by simpa using h, rfl⟩

theorem sha1HexChars_length (msg : List Nat) :
    (sha1HexChars msg).length = 40 := by
  unfold sha1HexChars
  obtain ⟨h0, h1, h2, h3, h4⟩ := sha1Words msg
  simp [wordHexChars]

theorem mem_wordHexChars (w : Nat) (c : Char) (h : c ∈ wordHexChars w) :
    ∃ n, n < 16 ∧ c = nibbleChar n := by
  simp only [wordHexChars, List.mem_map] at h
  obtain ⟨s, -, rfl⟩ := h
  exact ⟨_, Nat.mod_lt _ (by decide), rfl⟩

theorem mem_sha1HexChars (msg : List Nat) (c : Char)
    (h : c ∈ sha1HexChars msg) : ∃ n, n < 16 ∧ c = nibbleChar n := by
  unfold sha1HexChars at h
  obtain ⟨h0, h1, h2, h3, h4⟩ := sha1Words msg
  simp only [List.mem_append] at h
  rcases h with ((((h | h) | h) | h) | h) <;> exact mem_wordHexChars _ _ h

/-! ### Claim theorems -/

/-- C1: Sweep flips exactly the IN records that are silent past the
threshold.  An IN record with `now - last_seen > threshold` becomes OUT
with `out_time = now`; an IN record with `now - last_seen ≤ threshold` is
left unchanged, in particular it stays IN. -/
theorem cleanup_exits_flips_silent_in (reg : Registry) (now threshold : Int)
    (a : String) (d : DeviceRecord) (t : Int)
    (h : reg.lookup a = some d) (hin : d.status = some "IN")
    (ht : d.last_seen = some t) :
    (now - t > threshold →
      (cleanup_exits now threshold reg).lookup a
        = some { d with status := some "OUT", out_time := some now }) ∧
    (now - t ≤ threshold →
      (cleanup_exits now threshold reg).lookup a = some d) := by
  constructor
  · intro hgt
    rw [lookup_cleanup_exits, h]
    have hcond : d.status = some "IN" ∧ now - d.last_seen.getD 0 > threshold := by
      refine ⟨hin, ?_⟩
      rw [ht]
      simpa using hgt
    have hc : cleanupRecord now threshold d
        = { d with status := some "OUT", out_time := some now } := by
      rw [cleanupRecord, if_pos hcond]
    simp [hc]
  · intro hle
    rw [lookup_cleanup_exits, h]
    have hc : cleanupRecord now threshold d = d := by
      rw [cleanupRecord, if_neg]
      rintro ⟨-, hgt⟩
      rw [ht] at hgt
      simp only [Option.getD_some] at hgt
      omega
    simp [hc]

/-- Witness for C1: with `now = 1000` and threshold 30, a record last
seen at `969 = now - 30 - 1` is flipped OUT with `out_time = 1000`, and a
record last seen at `971 = now - 30 + 1` is unchanged. -/
theorem cleanup_exits_flips_silent_in_witness :
    (cleanup_exits 1000 30
        [("AA:BB", { sampleRec with last_seen := some 969 })]).lookup "AA:BB"
      = some { sampleRec with
               last_seen := some 969
               status := some "OUT"
               out_time := some 1000 } ∧
    (cleanup_exits 1000 30
        [("AA:BB", { sampleRec with last_seen := some 971 })]).lookup "AA:BB"
      = some { sampleRec with last_seen := some 971 } :=
  ⟨(cleanup_exits_flips_silent_in
      [("AA:BB", { sampleRec with last_seen := some 969 })] 1000 30 "AA:BB"
      { sampleRec with last_seen := some 969 } 969 (by decide) (by decide)
      (by decide)).1 (by decide),
   (cleanup_exits_flips_silent_in
      [("AA:BB", { sampleRec with last_seen := some 971 })] 1000 30 "AA:BB"
      { sampleRec with last_seen := some 971 } 971 (by decide) (by decide)
      (by decide)).2 (by decide)⟩

/-- C3: Sweep is idempotent — a second `cleanup_exits` with the same
`now` (and threshold) is the identity on the already-swept registry — and
one-directional: a record that is already OUT is returned untouched, so
its `out_time` is never re-stamped and it is never promoted to IN. -/
theorem cleanup_exits_idempotent_one_directional (reg : Registry)
    (now threshold : Int) :
    cleanup_exits now threshold (cleanup_exits now threshold reg)
      = cleanup_exits now threshold reg ∧
    (∀ (a : String) (d : DeviceRecord), reg.lookup a = some d →
      d.status = some "OUT" →
      (cleanup_exits now threshold reg).lookup a = some d) := by
  refine ⟨cleanup_exits_idem now threshold reg, ?_⟩
  intro a d h hout
  rw [lookup_cleanup_exits, h]
  have hc : cleanupRecord now threshold d = d := by
    rw [cleanupRecord, if_neg]
    rintro ⟨h1, -⟩
    rw [hout] at h1
    exact absurd (Option.some.inj h1) (by decide)
  simp [hc]

/-- Witness for C3 on a one-record registry whose record is already OUT. -/
theorem cleanup_exits_idempotent_one_directional_witness :
    cleanup_exits 2000 30 (cleanup_exits 2000 30
        [("AA:BB", { sampleRec with status := some "OUT", out_time := some 1031 })])
      = cleanup_exits 2000 30
        [("AA:BB", { sampleRec with status := some "OUT", out_time := some 1031 })] ∧
    (cleanup_exits 2000 30
        [("AA:BB", { sampleRec with status := some "OUT", out_time := some 1031 })]).lookup "AA:BB"
      = some { sampleRec with status := some "OUT", out_time := some 1031 } :=
  ⟨(cleanup_exits_idempotent_one_directional
      [("AA:BB", { sampleRec with status := some "OUT", out_time := some 1031 })]
      2000 30).1,
   (cleanup_exits_idempotent_one_directional
      [("AA:BB", { sampleRec with status := some "OUT", out_time := some 1031 })]
      2000 30).2 "AA:BB"
      { sampleRec with status := some "OUT", out_time := some 1031 }
      (by decide) (by decide)⟩

/-- C10: the sweep body is total on malformed records.  A record whose
`status` is `"IN"` but which has no `last_seen` key is treated as last
seen at 0 (`d.get("last_seen", 0)`), hence flipped OUT with
`out_time = now` by any sweep with `now > threshold`; a record with no
`status` key is never touched.  The registry-level form is stated for
`cleanup_exits` as well. -/
theorem cleanup_exits_total_malformed (now threshold : Int) :
    (∀ d : DeviceRecord, d.status = some "IN" → d.last_seen = none →
      now > threshold →
      cleanupRecord now threshold d
        = { d with status := some "OUT", out_time := some now }) ∧
    (∀ d : DeviceRecord, d.status = none →
      cleanupRecord now threshold d = d) ∧
    (∀ (reg : Registry) (a : String) (d : DeviceRecord),
      reg.lookup a = some d → d.status = some "IN" → d.last_seen = none →
      now > threshold →
      (cleanup_exits now threshold reg).lookup a
        = some { d with status := some "OUT", out_time := some now }) := by
  have key : ∀ d : DeviceRecord, d.status = some "IN" → d.last_seen = none →
      now > threshold →
      cleanupRecord now threshold d
        = { d with status := some "OUT", out_time := some now } := by
    intro d hin hnone hgt
    have hcond : d.status = some "IN" ∧ now - d.last_seen.getD 0 > threshold := by
      refine ⟨hin, ?_⟩
      rw [hnone]
      simpa using hgt
    rw [cleanupRecord, if_pos hcond]
  refine ⟨key, ?_, ?_⟩
  · intro d hnone
    rw [cleanupRecord, if_neg]
    rintro ⟨h1, -⟩
    rw [hnone] at h1
    exact Option.noConfusion h1
  · intro reg a d h hin hnone hgt
    rw [lookup_cleanup_exits, h]
    simp [key d hin hnone hgt]

/-- Witness for C10: at `now = 31 > 30`, an IN record with no `last_seen`
is flipped with `out_time = 31`; a record with no `status` is unchanged. -/
theorem cleanup_exits_total_malformed_witness :
    cleanupRecord 31 30 { sampleRec with last_seen := none }
      = { sampleRec with
          last_seen := none
          status := some "OUT"
          out_time := some 31 } ∧
    cleanupRecord 31 30 { sampleRec with status := none }
      = { sampleRec with status := none } :=
  ⟨(cleanup_exits_total_malformed 31 30).1 { sampleRec with last_seen := none }
      (by decide) (by decide) (by decide),
   (cleanup_exits_total_malformed 31 30).2.1 { sampleRec with status := none }
      (by decide)⟩

/-- C4: ingesting an observation for a known address sets
`last_seen = now`, overwrites `rssi` with the reported value (even when
it is `None`), sets `status = "IN"`, bumps the observation count by one
(`d.get("seen_count", 0) + 1`), overwrites `ble_name` only when the new
name is truthy (non-empty), and leaves `tag`, `address`, `first_seen` and
`custom_name` untouched — all visible in the single record equation. -/
theorem mark_seen_known_update (reg : Registry) (addr : String)
    (name : Option String) (rssi : Option Int) (now : Int) (d : DeviceRecord)
    (h : reg.lookup addr = some d) :
    (mark_seen reg addr name rssi now).lookup addr =
      some { d with
             last_seen := some now
             rssi := some rssi
             status := some "IN"
             seen_count := some (d.seen_count.getD 0 + 1)
             ble_name := if strTruthy name then name else d.ble_name } := by
  simp only [mark_seen, h]
  rw [lookup_updateAt_self, h]
  by_cases ht : strTruthy name <;> simp [seenUpdate, ht]

/-- Witness for C4: re-ingesting `sampleRec` (count 1) at time 1005 with
an empty name and no signal gives count 2, `rssi = null`, and keeps the
previously reported name. -/
theorem mark_seen_known_update_witness :
    (mark_seen [("AA:BB", sampleRec)] "AA:BB" (some "") none 1005).lookup "AA:BB"
      = some { sampleRec with
               last_seen := some 1005
               rssi := some none
               status := some "IN"
               seen_count := some 2 } :=
  mark_seen_known_update [("AA:BB", sampleRec)] "AA:BB" (some "") none 1005
    sampleRec (by decide)

/-- C5: ingesting an observation for an unseen address appends exactly
one record keyed by that address, with `tag = make_tag addr`,
`first_seen = last_seen = now`, `seen_count = 1`, `status = "IN"`,
`rssi` as reported (possibly null), empty `custom_name`, `ble_name` the
reported name or the `"-"` sentinel, and no `out_time`; no other
address is affected. -/
theorem mark_seen_new_record (reg : Registry) (addr : String)
    (name : Option String) (rssi : Option Int) (now : Int)
    (h : reg.lookup addr = none) :
    (mark_seen reg addr name rssi now).lookup addr =
      some { tag := some (make_tag addr)
             address := some addr
             ble_name := some (orDash name)
             custom_name := some ""
             rssi := some rssi
             first_seen := some now
             last_seen := some now
             status := some "IN"
             seen_count := some 1
             out_time := none } ∧
    (mark_seen reg addr name rssi now).length = reg.length + 1 ∧
    (∀ b, b ≠ addr →
      (mark_seen reg addr name rssi now).lookup b = reg.lookup b) := by
  refine ⟨?_, ?_, ?_⟩
  · simp only [mark_seen, h]
    exact lookup_append_self _ _ _ h
  · simp only [mark_seen, h]
    simp
  · intro b hb
    simp only [mark_seen, h]
    exact lookup_append_ne _ _ _ _ hb

/-- Witness for C5: first sighting of `"AA:BB"` named `"Phone1"` at
signal −60, time 1000, creates exactly the record `sampleRec` with
`tag = TAG-27DE5F57`, and an unrelated address stays absent. -/
theorem mark_seen_new_record_witness :
    (mark_seen [] "AA:BB" (some "Phone1") (some (-60)) 1000).lookup "AA:BB"
      = some { sampleRec with tag := some (make_tag "AA:BB") } ∧
    (mark_seen [] "AA:BB" (some "Phone1") (some (-60)) 1000).length = 0 + 1 ∧
    (mark_seen [] "AA:BB" (some "Phone1") (some (-60)) 1000).lookup "CC:DD"
      = List.lookup "CC:DD" [] :=
  ⟨(mark_seen_new_record [] "AA:BB" (some "Phone1") (some (-60)) 1000 rfl).1,
   (mark_seen_new_record [] "AA:BB" (some "Phone1") (some (-60)) 1000 rfl).2.1,
   (mark_seen_new_record [] "AA:BB" (some "Phone1") (some (-60)) 1000 rfl).2.2
     "CC:DD" (by decide)⟩

/-- C9: the label operation (`devices[addr]["custom_name"] = new_name`)
raises a key error and performs no update when the address is absent;
when present it returns the registry with only that record's
`custom_name` replaced (unconditionally, empty string included) — every
other field and every other record is unchanged. -/
theorem set_custom_name_spec (reg : Registry) (addr s : String) :
    (reg.lookup addr = none →
      set_custom_name reg addr s = .error ("KeyError: " ++ addr)) ∧
    (∀ d, reg.lookup addr = some d →
      ∃ reg2, set_custom_name reg addr s = .ok reg2 ∧
        reg2.lookup addr = some { d with custom_name := some s } ∧
        ∀ b, b ≠ addr → reg2.lookup b = reg.lookup b) := by
  constructor
  · intro h
    simp only [set_custom_name, h]
  · intro d h
    refine ⟨updateAt addr (fun d2 => { d2 with custom_name := some s }) reg,
      ?_, ?_, ?_⟩
    · simp only [set_custom_name, h]
    · rw [lookup_updateAt_self, h]
      rfl
    · intro b hb
      exact lookup_updateAt_ne _ _ _ _ hb

/-- Witness for C9: labeling an absent address fails with a key error;
labeling `"AA:BB"` with the empty string overwrites only `custom_name`. -/
theorem set_custom_name_spec_witness :
    set_custom_name [("AA:BB", sampleRec)] "CC:DD" "x"
      = .error ("KeyError: " ++ "CC:DD") ∧
    ∃ reg2, set_custom_name [("AA:BB", sampleRec)] "AA:BB" "" = .ok reg2 ∧
      reg2.lookup "AA:BB" = some { sampleRec with custom_name := some "" } ∧
      ∀ b, b ≠ "AA:BB" → reg2.lookup b = List.lookup b [("AA:BB", sampleRec)] :=
  ⟨(set_custom_name_spec [("AA:BB", sampleRec)] "CC:DD" "x").1 (by decide),
   (set_custom_name_spec [("AA:BB", sampleRec)] "AA:BB" "").2 sampleRec (by decide)⟩

/-- C2 (counterexample): it is NOT the case that one ingestion batch
stamps all its records with a single timestamp.  `mark_seen` reads
`int(time.time())` itself, once per observation; with clock readings
1000, 1001 the two records of one batch end up with different
`last_seen` values. -/
theorem scan_ingest_not_single_timestamp :
    ¬ ∀ (clock : Nat → Int) (reg : Registry) (obs : List Observation),
        ∃ t : Int, ∀ o ∈ obs,
          ((scan_ingest clock 0 reg obs).lookup o.address).map
              DeviceRecord.last_seen = some (some t) := by
  intro hall
  obtain ⟨t, ht⟩ := hall (fun k => 1000 + (k : Int)) []
    [⟨"AA", none, none⟩, ⟨"BB", none, none⟩]
  have h1 := ht ⟨"AA", none, none⟩ (by simp)
  have h2 := ht ⟨"BB", none, none⟩ (by simp)
  have e1 : ((scan_ingest (fun k => 1000 + (k : Int)) 0 []
      [⟨"AA", none, none⟩, ⟨"BB", none, none⟩]).lookup
        (Observation.address ⟨"AA", none, none⟩)).map DeviceRecord.last_seen
      = some (some 1000) := by decide
  have e2 : ((scan_ingest (fun k => 1000 + (k : Int)) 0 []
      [⟨"AA", none, none⟩, ⟨"BB", none, none⟩]).lookup
        (Observation.address ⟨"BB", none, none⟩)).map DeviceRecord.last_seen
      = some (some 1001) := by decide
  rw [e1] at h1
  rw [e2] at h2
  have g1 : (1000 : Int) = t := by simpa using h1
  have g2 : (1001 : Int) = t := by simpa using h2
  omega

/-- C2 (amended): the ingestion loop re-reads the clock per observation:
in a two-observation batch over distinct addresses, the first record is
stamped with reading 0 and the second with reading 1 — the batch shares
one timestamp only when those clock readings coincide. -/
theorem scan_ingest_stamps_per_observation (clock : Nat → Int)
    (reg : Registry) (o1 o2 : Observation) (h : o1.address ≠ o2.address) :
    (((scan_ingest clock 0 reg [o1, o2]).lookup o1.address).map
        DeviceRecord.last_seen = some (some (clock 0))) ∧
    (((scan_ingest clock 0 reg [o1, o2]).lookup o2.address).map
        DeviceRecord.last_seen = some (some (clock 1))) := by
  constructor
  · show ((mark_seen (mark_seen reg o1.address o1.name o1.rssi (clock 0))
        o2.address o2.name o2.rssi (clock 1)).lookup o1.address).map
          DeviceRecord.last_seen = some (some (clock 0))
    rw [mark_seen_other _ _ _ _ _ _ h]
    exact mark_seen_last_seen _ _ _ _ _
  · exact mark_seen_last_seen _ _ _ _ _

/-- Witness for the amended C2 with the advancing clock `1000 + k`. -/
theorem scan_ingest_stamps_per_observation_witness :
    (((scan_ingest (fun k => 1000 + (k : Int)) 0 []
        [⟨"AA", none, none⟩, ⟨"BB", none, none⟩]).lookup
          (Observation.address ⟨"AA", none, none⟩)).map DeviceRecord.last_seen
      = some (some ((fun k => 1000 + (k : Int)) 0))) ∧
    (((scan_ingest (fun k => 1000 + (k : Int)) 0 []
        [⟨"AA", none, none⟩, ⟨"BB", none, none⟩]).lookup
          (Observation.address ⟨"BB", none, none⟩)).map DeviceRecord.last_seen
      = some (some ((fun k => 1000 + (k : Int)) 1))) :=
  scan_ingest_stamps_per_observation (fun k => 1000 + (k : Int)) []
    ⟨"AA", none, none⟩ ⟨"BB", none, none⟩ (by decide)

/-- C6: `make_tag` is a pure function of the address alone (a Lean
function of `a`, independent of any clock or registry state, total on
all strings), and its value is `"TAG-"` followed by the first 8
characters of the SHA-1 hex digest of the address, upper-cased: it has
length 12 and every character after the `"TAG-"` head is an uppercase
hexadecimal digit. -/
theorem make_tag_deterministic_format (a : String) :
    make_tag a
      = ⟨(TAG_LABEL ++ "-").data
          ++ ((sha1HexChars (utf8Bytes a)).take 8).map Char.toUpper⟩ ∧
    (make_tag a).length = 12 ∧
    (∀ c ∈ (make_tag a).data.drop 4, c ∈ upperHexChars) := by
  refine ⟨rfl, ?_, ?_⟩
  · show ((TAG_LABEL ++ "-").data
        ++ ((sha1HexChars (utf8Bytes a)).take 8).map Char.toUpper).length = 12
    rw [List.length_append, List.length_map, List.length_take,
      sha1HexChars_length]
    rfl
  · intro c hc
    have hdrop : (make_tag a).data.drop 4
        = ((sha1HexChars (utf8Bytes a)).take 8).map Char.toUpper := rfl
    rw [hdrop] at hc
    simp only [List.mem_map] at hc
    obtain ⟨x, hx, rfl⟩ := hc
    have hx2 : x ∈ sha1HexChars (utf8Bytes a) := List.take_subset _ _ hx
    obtain ⟨n, hn, rfl⟩ := mem_sha1HexChars _ _ hx2
    exact nibbleChar_toUpper_mem n hn

/-- Witness for C6 at the address `"AA:BB"`. -/
theorem make_tag_deterministic_format_witness :
    (make_tag "AA:BB").length = 12 ∧ '2' ∈ upperHexChars :=
  ⟨(make_tag_deterministic_format "AA:BB").2.1,
   (make_tag_deterministic_format "AA:BB").2.2 '2' (by decide)⟩

example : make_tag "AA:BB" = "TAG-27DE5F57" := by decide

/-- C7: persistence round-trips.  Loading the file written by
`save_devices` and reading the records back yields the same registry —
the same addresses bound to records with the same field values — for
every registry, in particular for any one producible via the public
operations. -/
theorem save_load_roundtrip (reg : Registry) :
    decodeRegistry (load_devices (save_devices reg)) = reg := by
  show decodeRegistry (encodeRegistry reg) = reg
  exact decode_encodeRegistry reg

/-- C8: `load_devices` never fails its caller: a missing file and an
unreadable or unparseable file both yield the empty registry `{}`, and
well-formed content is returned exactly as parsed. -/
theorem load_devices_never_fails :
    load_devices .missing = Json.obj [] ∧
    load_devices .unreadable = Json.obj [] ∧
    ∀ j, load_devices (.content j) = j :=
  ⟨rfl, rfl, fun _ => rfl⟩
